import Mathlib

/-!
Verification of the bounded concurrent preview-lifecycle manager of
`sparkskye.com` (canonical implementation: `hive-resources/js/models.js`
together with `CardPreview` from `hive-resources/js/preview3d.js`).

The embedding is a shallow, executable translation of the scheduler state
and its event handlers:

* `previewByCard`  — the Live Resource Set (`const previewByCard = new Map()`),
  an insertion-ordered association list from card id to handle id;
* `visibleCards`   — the Visible Set (`const visibleCards = new Set()`),
  an insertion-ordered duplicate-free list of card ids;
* `pumpRaf`        — whether a pump is scheduled (`let pumpRaf = 0` holds a
  requestAnimationFrame id; only its zero/non-zero status matters);
* `card.dataset.failed` — the sticky per-card failure flag, modelled as the
  list `failedCards`;
* per-card placeholder/reload UI state, modelled as the display map
  (`Disp.idle` = empty placeholder, `Disp.loading` = dot loader running,
  `Disp.ready` = placeholder hidden, `Disp.failedShown` = "PREVIEW FAILED"
  text with the RELOAD button visible);
* in-flight `CardPreview.init` promises, modelled as the `pending` list of
  (handle id, card id, origin) triples, where the origin records which
  completion handlers were attached (the pump's `.then`/`.catch` at
  models.js:460-475 versus the reload click handler's `try`/`catch` at
  models.js:352-364 — they differ: only the pump's handlers call
  `schedulePump`);
* `CardPreview` instances, modelled as handle records with the `_disposed`
  flag and an `attached` flag recording whether the resolved scene was
  actually attached (the `if (this._disposed) return;` check at
  preview3d.js:156 skips attachment);
* `pumps` — a ghost counter of executed `pumpVisiblePreviews` passes, used
  only to state coalescing properties; no handler reads it.

Cards are identified by natural numbers.  Every card built by `renderGrid`
has a `.card__viewer` child with a non-empty `dataset.modelUrl`
(models.js:268-281), so the `if (!viewer) continue` / `if (!modelUrl)
continue` guards of the pump never fire and are not modelled.
`CardPreview`'s internal placeholder lookups (`.ph`, `.reloadBtn`) find
nothing in this page's DOM (the classes are `card__placeholder` /
`card__reload`), so its internal UI writes are no-ops and are not modelled.
-/

/-- Display state of one card's placeholder/reload UI. -/
inductive Disp where
  | idle
  | loading
  | ready
  | failedShown
deriving DecidableEq

/-- Which completion handlers an in-flight load carries: the ones installed
by `pumpVisiblePreviews` (models.js:460-475) or the ones in the reload click
handler (models.js:352-364). -/
inductive Origin where
  | pump
  | retry
deriving DecidableEq

/-- Scheduler-relevant state of one `CardPreview` instance: its `_disposed`
flag and whether its load's resolution actually attached the scene. -/
structure Handle where
  disposed : Bool
  attached : Bool
deriving DecidableEq

/-- Lookup in an insertion-ordered association list (JS `Map.get`). -/
def alookup {α : Type} (c : Nat) : List (Nat × α) → Option α
  | [] => none
  | (k, v) :: rest => if k = c then some v else alookup c rest

/-- Remove the binding for a key (JS `Map.delete`; keys are unique in every
state the code builds, and filtering removes exactly that binding). -/
def eraseKey {α : Type} (c : Nat) (l : List (Nat × α)) : List (Nat × α) :=
  l.filter (fun p => p.1 != c)

/-- Overwrite the value for a key.  Only lookups ever read this map, so the
position of the binding is irrelevant. -/
def setKey {α : Type} (c : Nat) (v : α) (l : List (Nat × α)) : List (Nat × α) :=
  eraseKey c l ++ [(c, v)]

/-- JS `Set.add`: append if absent, keep insertion order. -/
def addToSet (c : Nat) (l : List Nat) : List Nat :=
  if c ∈ l then l else l ++ [c]

/-- `const MAX_ACTIVE_CARD_PREVIEWS = 12;` (models.js:6). -/
def MAX_ACTIVE_CARD_PREVIEWS : Nat := 12

/-- The module-level mutable state of models.js that the scheduler touches. -/
structure GridState where
  visibleCards : List Nat
  previewByCard : List (Nat × Nat)
  handles : List (Nat × Handle)
  failedCards : List Nat
  display : List (Nat × Disp)
  pumpRaf : Bool
  pending : List (Nat × Nat × Origin)
  nextHandle : Nat
  pumps : Nat
deriving DecidableEq

/-- State right after `renderGrid` rebuilds the grid: observer fresh, both
sets cleared, no failures recorded on the new cards (models.js:255-263). -/
def freshGrid : GridState :=
  { visibleCards := [], previewByCard := [], handles := [], failedCards := [],
    display := [], pumpRaf := false, pending := [], nextHandle := 0, pumps := 0 }

/-- Display of a card; cards start with an empty visible placeholder. -/
def displayOf (c : Nat) (s : GridState) : Disp :=
  (alookup c s.display).getD Disp.idle

/-- The handle record for a handle id; a missing id behaves as disposed. -/
def handleOf (h : Nat) (s : GridState) : Handle :=
  (alookup h s.handles).getD { disposed := true, attached := false }

/-- `prev.destroy(true)` on the preview with handle id `h`: sets `_disposed`,
detaches the scene and releases the renderer (preview3d.js:182-218). -/
def markHandleDisposed (h : Nat) (s : GridState) : GridState :=
  { s with handles :=
      s.handles.map (fun p =>
        if p.1 = h then (p.1, { disposed := true, attached := false }) else p) }

/-- Record that a resolved load attached its scene (preview3d.js:158-174). -/
def markHandleAttached (h : Nat) (s : GridState) : GridState :=
  { s with handles :=
      s.handles.map (fun p =>
        if p.1 = h then (p.1, { p.2 with attached := true }) else p) }

/-- `schedulePump` (models.js:413-419): if a frame callback is already
scheduled do nothing, else schedule one. -/
def schedulePump (s : GridState) : GridState :=
  if s.pumpRaf then s else { s with pumpRaf := true }

/-- Shared admission step of the pump loop (models.js:448-459) and of the
reload handler (models.js:345-353): show the LOADING placeholder, create a
fresh `CardPreview`, insert it into `previewByCard` and start `init`,
registering the given completion handlers. -/
def insertPreview (org : Origin) (c : Nat) (s : GridState) : GridState :=
  { s with
    display := setKey c Disp.loading s.display,
    handles := s.handles ++ [(s.nextHandle, { disposed := false, attached := false })],
    previewByCard := s.previewByCard ++ [(c, s.nextHandle)],
    pending := s.pending ++ [(s.nextHandle, c, org)],
    nextHandle := s.nextHandle + 1 }

/-- The eviction scan (models.js:437-442): destroy and delete the first
live entry whose card is not in `visibleCards`; if every live card is
visible, do nothing. -/
def evictOneNonVisible (s : GridState) : GridState :=
  match s.previewByCard.find? (fun p => !(s.visibleCards.contains p.1)) with
  | some (c, h) =>
      { markHandleDisposed h s with previewByCard := eraseKey c s.previewByCard }
  | none => s

/-- The `for (const card of visibleCards)` loop of `pumpVisiblePreviews`
(models.js:425-476), iterating over a snapshot of the Visible Set (the loop
body never mutates `visibleCards`). -/
def pumpLoop : GridState → List Nat → GridState
  | s, [] => s
  | s, c :: rest =>
    if MAX_ACTIVE_CARD_PREVIEWS ≤ s.previewByCard.length then s
    else if (alookup c s.previewByCard).isSome then pumpLoop s rest
    else if c ∈ s.failedCards then pumpLoop s rest
    else
      let s1 := if MAX_ACTIVE_CARD_PREVIEWS ≤ s.previewByCard.length
                then evictOneNonVisible s else s
      if MAX_ACTIVE_CARD_PREVIEWS ≤ s1.previewByCard.length then s1
      else pumpLoop (insertPreview Origin.pump c s1) rest

/-- `pumpVisiblePreviews` (models.js:421-477). -/
def pumpVisiblePreviews (s : GridState) : GridState :=
  if MAX_ACTIVE_CARD_PREVIEWS ≤ s.previewByCard.length then s
  else pumpLoop s s.visibleCards

/-- The animation-frame boundary: if `pumpRaf` is set, the scheduled
callback clears it and runs one `pumpVisiblePreviews` pass
(models.js:415-418); `pumps` counts executed passes. -/
def stepFrame (s : GridState) : GridState :=
  if s.pumpRaf then
    pumpVisiblePreviews { s with pumpRaf := false, pumps := s.pumps + 1 }
  else s

/-- IntersectionObserver enter branch (models.js:381-385). -/
def stepEnter (c : Nat) (s : GridState) : GridState :=
  schedulePump { s with visibleCards := addToSet c s.visibleCards }

/-- IntersectionObserver leave branch (models.js:386-406): drop the card
from the Visible Set, destroy and delete any live preview immediately,
reset the placeholder (idle, or the failed UI when the flag is set), and
request a pump. -/
def stepLeave (c : Nat) (s : GridState) : GridState :=
  let s1 := { s with visibleCards := s.visibleCards.filter (fun x => x != c) }
  let s2 := match alookup c s1.previewByCard with
    | some h => { markHandleDisposed h s1 with previewByCard := eraseKey c s1.previewByCard }
    | none => s1
  let d := if c ∈ s2.failedCards then Disp.failedShown else Disp.idle
  let s3 := { s2 with display := setKey c d s2.display }
  schedulePump s3

/-- Settlement of `preview.init` as a success.  Inside `init` the resumed
coroutine checks `_disposed` and returns without attaching when the preview
was destroyed while the load was in flight (preview3d.js:156); the owner's
`.then` handler then runs unconditionally: it stops the dot loader and
hides the placeholder, and — for pump-initiated loads — calls
`schedulePump` (models.js:460-464 resp. 352-356). -/
def onInitResolved (h c : Nat) (org : Origin) (s : GridState) : GridState :=
  let s1 := { s with pending := s.pending.erase (h, c, org) }
  let s2 := if (handleOf h s1).disposed then s1 else markHandleAttached h s1
  let s3 := { s2 with display := setKey c Disp.ready s2.display }
  match org with
  | Origin.pump => schedulePump s3
  | Origin.retry => s3

/-- Settlement of `preview.init` as a rejection: the `.catch` handler sets
the sticky failure flag, shows the "PREVIEW FAILED" placeholder with the
RELOAD button, and — for pump-initiated loads — calls `schedulePump`
(models.js:465-475 resp. 357-364).  It never deletes the entry from
`previewByCard`, and it runs whether or not the preview was disposed. -/
def onInitRejected (h c : Nat) (org : Origin) (s : GridState) : GridState :=
  let s1 := { s with pending := s.pending.erase (h, c, org) }
  let s2 := { s1 with
      failedCards := addToSet c s1.failedCards,
      display := setKey c Disp.failedShown s1.display }
  match org with
  | Origin.pump => schedulePump s2
  | Origin.retry => s2

/-- Reload click handler (models.js:334-365): clear the failure flag, tear
down any stale preview, then immediately build a new preview for this card
and start its load (with the retry completion handlers). -/
def onReloadClick (c : Nat) (s : GridState) : GridState :=
  let s1 := { s with failedCards := s.failedCards.filter (fun x => x != c) }
  let s2 := match alookup c s1.previewByCard with
    | some h => { markHandleDisposed h s1 with previewByCard := eraseKey c s1.previewByCard }
    | none => s1
  insertPreview Origin.retry c s2

/-- The events that drive the scheduler. -/
inductive Event where
  | enter (c : Nat)
  | leave (c : Nat)
  | frame
  | loadResolved (h c : Nat) (org : Origin)
  | loadRejected (h c : Nat) (org : Origin)
  | reloadClick (c : Nat)
deriving DecidableEq

/-- When an event can occur: load settlements only for a load that is
actually in flight, and reload clicks only while the RELOAD button is
visible (exactly the `failedShown` display state). -/
def enabledB : Event → GridState → Bool
  | Event.enter _, _ => true
  | Event.leave _, _ => true
  | Event.frame, _ => true
  | Event.loadResolved h c org, s => decide ((h, c, org) ∈ s.pending)
  | Event.loadRejected h c org, s => decide ((h, c, org) ∈ s.pending)
  | Event.reloadClick c, s => decide (displayOf c s = Disp.failedShown)

/-- The handler each event runs. -/
def step : Event → GridState → GridState
  | Event.enter c, s => stepEnter c s
  | Event.leave c, s => stepLeave c s
  | Event.frame, s => stepFrame s
  | Event.loadResolved h c org, s => onInitResolved h c org s
  | Event.loadRejected h c org, s => onInitRejected h c org s
  | Event.reloadClick c, s => onReloadClick c s

/-- One event, guarded by its enabling condition. -/
def run1 (e : Event) (s : GridState) : GridState :=
  if enabledB e s then step e s else s

/-- A sequence of events. -/
def run : List Event → GridState → GridState
  | [], s => s
  | e :: es, s => run es (run1 e s)

/-- A state is reachable when some event sequence produces it from the
freshly rendered grid. -/
def Reachable (s : GridState) : Prop :=
  ∃ tr : List Event, run tr freshGrid = s


/-- Recognizes reload-click events (the only handler that bypasses the
capacity check). -/
def isReloadClick : Event → Bool
  | Event.reloadClick _ => true
  | _ => false

/-- Recognizes a reload click on one specific card. -/
def isReloadOf (c : Nat) : Event → Bool
  | Event.reloadClick c' => c' == c
  | _ => false

/-- Recognizes visibility events (the enter/leave callbacks of the
IntersectionObserver). -/
def isVisEvent : Event → Bool
  | Event.enter _ => true
  | Event.leave _ => true
  | _ => false

/-- Twelve cards scroll in and are admitted; card 0's load then rejects (its
handle stays live), card 0 scrolls out (freeing its slot), card 12 scrolls
in and is admitted (back at capacity), and finally the user clicks RELOAD
on the failed card 0. -/
def c1Trace : List Event :=
  (List.range 12).map Event.enter ++
  [Event.frame, Event.loadRejected 0 0 Origin.pump, Event.leave 0,
   Event.enter 12, Event.frame, Event.reloadClick 0]

/-- Card 0 scrolls in, is admitted, and its load rejects. -/
def c2Trace : List Event :=
  [Event.enter 0, Event.frame, Event.loadRejected 0 0 Origin.pump]

/-- Card 0 is admitted, fails, scrolls out, and is revived by a reload
click while off-screen (so its fresh handle is live but not visible); then
cards 1..12 scroll in and a pump runs with thirteen visible candidates. -/
def c3Trace : List Event :=
  [Event.enter 0, Event.frame, Event.loadRejected 0 0 Origin.pump, Event.leave 0,
   Event.reloadClick 0] ++
  (List.range 12).map (fun i => Event.enter (i + 1)) ++ [Event.frame]

/-- Card 0 is admitted and scrolls out while its load is still pending. -/
def c4Trace : List Event :=
  [Event.enter 0, Event.frame, Event.leave 0]

/-- A state in which card 0 is failed and no longer live. -/
def c6Start : GridState :=
  run [Event.enter 0, Event.frame, Event.loadRejected 0 0 Origin.pump, Event.leave 0]
    freshGrid

/-- Two further pump passes with another card entering in between. -/
def c6Tail : List Event :=
  [Event.frame, Event.enter 1, Event.frame]

/-- Fourteen cards scroll in and one pump runs. -/
def c7TraceA : List Event :=
  (List.range 14).map Event.enter ++ [Event.frame]

/-- ... then card 5 scrolls out and another pump runs. -/
def c7TraceB : List Event :=
  c7TraceA ++ [Event.leave 5, Event.frame]

/-- Card 0 is admitted, fails, scrolls out; the pending pump drains, so no
pump is scheduled when the user clicks RELOAD. -/
def c8Trace : List Event :=
  [Event.enter 0, Event.frame, Event.loadRejected 0 0 Origin.pump, Event.leave 0,
   Event.frame]

/-- The distinct underlying resources a `CardPreview.destroy` call can
release (preview3d.js:182-218): the ResizeObserver disconnect, removing the
root from the scene, disposing the root's geometries/materials/textures,
disposing the WebGL renderer, and removing the canvas element. -/
inductive Release where
  | observerDisconnect
  | sceneRemoveRoot
  | rootResources
  | rendererDispose
  | canvasRemove
deriving DecidableEq

/-- The fields of a `CardPreview` instance that `destroy` reads or writes,
as presence flags: a field is `true` while the instance still holds that
resource and `false` once it has been nulled out.  A pending handle is one
where `root` is still `false` (the load has not resolved); `camera` is
nulled by `destroy` but owns no releasable resource. -/
structure CardPreview where
  canvas : Bool
  renderer : Bool
  scene : Bool
  camera : Bool
  root : Bool
  resizeObserver : Bool
  _disposed : Bool
deriving DecidableEq

/-- `CardPreview.destroy(removeDom)` (preview3d.js:182-218).  Every access
is guarded in the source (`?.` chains, `if (this.root && this.scene)`,
`try`/`catch`), so the function is total — it cannot throw.  It returns the
new instance state together with the list of resources released by this
call. -/
def CardPreview.destroy (p : CardPreview) (removeDom : Bool) : CardPreview × List Release :=
  let r1 : List Release := if p.resizeObserver then [Release.observerDisconnect] else []
  let r2 : List Release := if p.root && p.scene then [Release.sceneRemoveRoot] else []
  let r3 : List Release := if p.root then [Release.rootResources] else []
  let r4 : List Release := if p.renderer then [Release.rendererDispose] else []
  let r5 : List Release := if removeDom && p.canvas then [Release.canvasRemove] else []
  ({ canvas := false, renderer := false, scene := false, camera := false,
     root := false, resizeObserver := false, _disposed := true },
   r1 ++ r2 ++ r3 ++ r4 ++ r5)

theorem alookup_append_right_self {α : Type} (c : Nat) (v : α) :
    ∀ l : List (Nat × α), alookup c l = none → alookup c (l ++ [(c, v)]) = some v := by
  intro l
  induction l with
  | nil => intro _; simp [alookup]
  | cons p rest ih =>
    intro hp
    rw [alookup] at hp
    by_cases hk : p.1 = c
    · rw [if_pos hk] at hp; cases hp
    · rw [List.cons_append, alookup, if_neg hk]
      rw [if_neg hk] at hp
      exact ih hp

theorem alookup_append_ne {α : Type} (c c' : Nat) (v : α) (hne : c' ≠ c) :
    ∀ l : List (Nat × α), alookup c (l ++ [(c', v)]) = alookup c l := by
  intro l
  induction l with
  | nil => simp [alookup, hne]
  | cons p rest ih =>
    rw [List.cons_append, alookup, alookup]
    by_cases hk : p.1 = c
    · rw [if_pos hk, if_pos hk]
    · rw [if_neg hk, if_neg hk, ih]

theorem alookup_filter_none {α : Type} (c : Nat) (p : Nat × α → Bool) :
    ∀ l : List (Nat × α), alookup c l = none → alookup c (l.filter p) = none := by
  intro l
  induction l with
  | nil => intro _; rfl
  | cons q rest ih =>
    intro hq
    rw [alookup] at hq
    by_cases hk : q.1 = c
    · rw [if_pos hk] at hq; cases hq
    · rw [if_neg hk] at hq
      rw [List.filter]
      cases p q with
      | true => rw [alookup, if_neg hk]; exact ih hq
      | false => exact ih hq

theorem alookup_eraseKey_self {α : Type} (c : Nat) :
    ∀ l : List (Nat × α), alookup c (eraseKey c l) = none := by
  intro l
  induction l with
  | nil => rfl
  | cons q rest ih =>
    rw [eraseKey, List.filter]
    by_cases hk : q.1 = c
    · have : (q.1 != c) = false := by simp [hk]
      rw [this]; exact ih
    · have : (q.1 != c) = true := by simp [hk]
      rw [this, alookup, if_neg hk]; exact ih

theorem alookup_setKey_self {α : Type} (c : Nat) (v : α) (l : List (Nat × α)) :
    alookup c (setKey c v l) = some v := by
  rw [setKey]
  exact alookup_append_right_self c v _ (alookup_eraseKey_self c l)

theorem alookup_eraseKey_ne {α : Type} (c c' : Nat) (hne : c' ≠ c) :
    ∀ l : List (Nat × α), alookup c (eraseKey c' l) = alookup c l := by
  intro l
  induction l with
  | nil => rfl
  | cons q rest ih =>
    rw [eraseKey, List.filter]
    by_cases hk : q.1 = c'
    · have : (q.1 != c') = false := by simp [hk]
      rw [this, alookup]
      have hqc : q.1 ≠ c := by rw [hk]; exact hne
      rw [if_neg hqc]
      exact ih
    · have : (q.1 != c') = true := by simp [hk]
      rw [this, alookup, alookup]
      by_cases hqc : q.1 = c
      · rw [if_pos hqc, if_pos hqc]
      · rw [if_neg hqc, if_neg hqc]; exact ih

theorem alookup_append_left {α : Type} (c : Nat) (v : α) (l2 : List (Nat × α)) :
    ∀ l1 : List (Nat × α), alookup c l1 = some v → alookup c (l1 ++ l2) = some v := by
  intro l1
  induction l1 with
  | nil => intro h; cases h
  | cons q rest ih =>
    intro hq
    rw [alookup] at hq
    rw [List.cons_append, alookup]
    by_cases hk : q.1 = c
    · rw [if_pos hk] at hq ⊢; exact hq
    · rw [if_neg hk] at hq ⊢; exact ih hq

theorem mem_addToSet_self (c : Nat) (l : List Nat) : c ∈ addToSet c l := by
  rw [addToSet]
  split_ifs with h
  · exact h
  · simp

theorem mem_addToSet_of_mem (c c' : Nat) (l : List Nat) (h : c ∈ l) :
    c ∈ addToSet c' l := by
  rw [addToSet]
  split_ifs with h'
  · exact h
  · exact List.mem_append_left _ h

@[simp] theorem schedulePump_previewByCard (s : GridState) :
    (schedulePump s).previewByCard = s.previewByCard := by
  rw [schedulePump]; split <;> rfl

@[simp] theorem schedulePump_failedCards (s : GridState) :
    (schedulePump s).failedCards = s.failedCards := by
  rw [schedulePump]; split <;> rfl

@[simp] theorem schedulePump_display (s : GridState) :
    (schedulePump s).display = s.display := by
  rw [schedulePump]; split <;> rfl

@[simp] theorem schedulePump_handles (s : GridState) :
    (schedulePump s).handles = s.handles := by
  rw [schedulePump]; split <;> rfl

@[simp] theorem schedulePump_pending (s : GridState) :
    (schedulePump s).pending = s.pending := by
  rw [schedulePump]; split <;> rfl

@[simp] theorem schedulePump_visibleCards (s : GridState) :
    (schedulePump s).visibleCards = s.visibleCards := by
  rw [schedulePump]; split <;> rfl

@[simp] theorem schedulePump_pumps (s : GridState) :
    (schedulePump s).pumps = s.pumps := by
  rw [schedulePump]; split <;> rfl

@[simp] theorem schedulePump_nextHandle (s : GridState) :
    (schedulePump s).nextHandle = s.nextHandle := by
  rw [schedulePump]; split <;> rfl

@[simp] theorem schedulePump_pumpRaf (s : GridState) :
    (schedulePump s).pumpRaf = true := by
  rw [schedulePump]
  split
  · assumption
  · rfl

@[simp] theorem markHandleDisposed_previewByCard (h : Nat) (s : GridState) :
    (markHandleDisposed h s).previewByCard = s.previewByCard := rfl

@[simp] theorem markHandleDisposed_failedCards (h : Nat) (s : GridState) :
    (markHandleDisposed h s).failedCards = s.failedCards := rfl

@[simp] theorem markHandleDisposed_display (h : Nat) (s : GridState) :
    (markHandleDisposed h s).display = s.display := rfl

@[simp] theorem markHandleDisposed_pumpRaf (h : Nat) (s : GridState) :
    (markHandleDisposed h s).pumpRaf = s.pumpRaf := rfl

@[simp] theorem markHandleDisposed_pending (h : Nat) (s : GridState) :
    (markHandleDisposed h s).pending = s.pending := rfl

@[simp] theorem markHandleDisposed_visibleCards (h : Nat) (s : GridState) :
    (markHandleDisposed h s).visibleCards = s.visibleCards := rfl

@[simp] theorem markHandleDisposed_pumps (h : Nat) (s : GridState) :
    (markHandleDisposed h s).pumps = s.pumps := rfl

@[simp] theorem markHandleDisposed_nextHandle (h : Nat) (s : GridState) :
    (markHandleDisposed h s).nextHandle = s.nextHandle := rfl

@[simp] theorem markHandleAttached_previewByCard (h : Nat) (s : GridState) :
    (markHandleAttached h s).previewByCard = s.previewByCard := rfl

@[simp] theorem markHandleAttached_failedCards (h : Nat) (s : GridState) :
    (markHandleAttached h s).failedCards = s.failedCards := rfl

@[simp] theorem markHandleAttached_display (h : Nat) (s : GridState) :
    (markHandleAttached h s).display = s.display := rfl

@[simp] theorem markHandleAttached_pumpRaf (h : Nat) (s : GridState) :
    (markHandleAttached h s).pumpRaf = s.pumpRaf := rfl

@[simp] theorem markHandleAttached_pumps (h : Nat) (s : GridState) :
    (markHandleAttached h s).pumps = s.pumps := rfl

@[simp] theorem insertPreview_previewByCard (org : Origin) (c : Nat) (s : GridState) :
    (insertPreview org c s).previewByCard = s.previewByCard ++ [(c, s.nextHandle)] := rfl

@[simp] theorem insertPreview_failedCards (org : Origin) (c : Nat) (s : GridState) :
    (insertPreview org c s).failedCards = s.failedCards := rfl

@[simp] theorem insertPreview_pumpRaf (org : Origin) (c : Nat) (s : GridState) :
    (insertPreview org c s).pumpRaf = s.pumpRaf := rfl

@[simp] theorem insertPreview_pumps (org : Origin) (c : Nat) (s : GridState) :
    (insertPreview org c s).pumps = s.pumps := rfl

@[simp] theorem insertPreview_visibleCards (org : Origin) (c : Nat) (s : GridState) :
    (insertPreview org c s).visibleCards = s.visibleCards := rfl

@[simp] theorem insertPreview_pending (org : Origin) (c : Nat) (s : GridState) :
    (insertPreview org c s).pending = s.pending ++ [(s.nextHandle, c, org)] := rfl

@[simp] theorem insertPreview_handles (org : Origin) (c : Nat) (s : GridState) :
    (insertPreview org c s).handles
      = s.handles ++ [(s.nextHandle, { disposed := false, attached := false })] := rfl

@[simp] theorem evictOneNonVisible_failedCards (s : GridState) :
    (evictOneNonVisible s).failedCards = s.failedCards := by
  rw [evictOneNonVisible]; split <;> rfl

@[simp] theorem evictOneNonVisible_pumpRaf (s : GridState) :
    (evictOneNonVisible s).pumpRaf = s.pumpRaf := by
  rw [evictOneNonVisible]; split <;> rfl

@[simp] theorem evictOneNonVisible_pumps (s : GridState) :
    (evictOneNonVisible s).pumps = s.pumps := by
  rw [evictOneNonVisible]; split <;> rfl

theorem run1_enter (c : Nat) (s : GridState) :
    run1 (Event.enter c) s = stepEnter c s := rfl

theorem run1_leave (c : Nat) (s : GridState) :
    run1 (Event.leave c) s = stepLeave c s := rfl

theorem run1_frame (s : GridState) :
    run1 Event.frame s = stepFrame s := rfl

theorem run1_loadResolved_of_pending (h c : Nat) (org : Origin) (s : GridState)
    (hp : (h, c, org) ∈ s.pending) :
    run1 (Event.loadResolved h c org) s = onInitResolved h c org s := by
  rw [run1]
  have : enabledB (Event.loadResolved h c org) s = true := by
    rw [enabledB]; exact decide_eq_true hp
  rw [this]
  rfl

theorem run1_loadRejected_of_pending (h c : Nat) (org : Origin) (s : GridState)
    (hp : (h, c, org) ∈ s.pending) :
    run1 (Event.loadRejected h c org) s = onInitRejected h c org s := by
  rw [run1]
  have : enabledB (Event.loadRejected h c org) s = true := by
    rw [enabledB]; exact decide_eq_true hp
  rw [this]
  rfl

theorem run1_reloadClick_of_shown (c : Nat) (s : GridState)
    (hd : displayOf c s = Disp.failedShown) :
    run1 (Event.reloadClick c) s = onReloadClick c s := by
  rw [run1]
  have : enabledB (Event.reloadClick c) s = true := by
    rw [enabledB]; exact decide_eq_true hd
  rw [this]
  rfl

theorem alookup_cons {α : Type} (c : Nat) (p : Nat × α) (l : List (Nat × α)) :
    alookup c (p :: l) = if p.1 = c then some p.2 else alookup c l := rfl

theorem alookup_markHandleDisposed (h : Nat) (s : GridState) :
    alookup h (markHandleDisposed h s).handles
      = (alookup h s.handles).map
          (fun _ => ({ disposed := true, attached := false } : Handle)) := by
  rw [markHandleDisposed]
  show alookup h (s.handles.map _) = _
  induction s.handles with
  | nil => rfl
  | cons q rest ih =>
    rw [List.map_cons]
    by_cases hk : q.1 = h
    · rw [if_pos hk, alookup_cons, alookup_cons]
      rw [if_pos hk, if_pos hk]
      rfl
    · rw [if_neg hk, alookup_cons, alookup_cons]
      rw [if_neg hk, if_neg hk, ih]

theorem handleOf_markHandleDisposed_self (h : Nat) (s : GridState) :
    (handleOf h (markHandleDisposed h s)).disposed = true := by
  rw [handleOf, alookup_markHandleDisposed]
  cases alookup h s.handles <;> rfl

theorem pumpLoop_length_le : ∀ (l : List Nat) (s : GridState),
    s.previewByCard.length ≤ MAX_ACTIVE_CARD_PREVIEWS →
    (pumpLoop s l).previewByCard.length ≤ MAX_ACTIVE_CARD_PREVIEWS := by
  intro l
  induction l with
  | nil => intro s hs; exact hs
  | cons c rest ih =>
    intro s hs
    rw [pumpLoop]
    split_ifs with h1 h2 h3
    · exact hs
    · exact ih s hs
    · exact ih s hs
    · show (if MAX_ACTIVE_CARD_PREVIEWS ≤ s.previewByCard.length then s
            else pumpLoop (insertPreview Origin.pump c s) rest).previewByCard.length
          ≤ MAX_ACTIVE_CARD_PREVIEWS
      rw [if_neg h1]
      apply ih
      rw [insertPreview_previewByCard, List.length_append, List.length_singleton]
      omega

theorem pumpLoop_append : ∀ (l : List Nat) (s : GridState),
    ∃ t, (pumpLoop s l).previewByCard = s.previewByCard ++ t := by
  intro l
  induction l with
  | nil => intro s; exact ⟨[], by rw [pumpLoop, List.append_nil]⟩
  | cons c rest ih =>
    intro s
    rw [pumpLoop]
    split_ifs with h1 h2 h3
    · exact ⟨[], by rw [List.append_nil]⟩
    · exact ih s
    · exact ih s
    · show ∃ t, (if MAX_ACTIVE_CARD_PREVIEWS ≤ s.previewByCard.length then s
            else pumpLoop (insertPreview Origin.pump c s) rest).previewByCard
          = s.previewByCard ++ t
      rw [if_neg h1]
      obtain ⟨t, ht⟩ := ih (insertPreview Origin.pump c s)
      refine ⟨(c, s.nextHandle) :: t, ?_⟩
      rw [ht, insertPreview_previewByCard, List.append_assoc]
      rfl

theorem pumpLoop_pumps_raf : ∀ (l : List Nat) (s : GridState),
    (pumpLoop s l).pumps = s.pumps ∧ (pumpLoop s l).pumpRaf = s.pumpRaf := by
  intro l
  induction l with
  | nil => intro s; exact ⟨rfl, rfl⟩
  | cons c rest ih =>
    intro s
    rw [pumpLoop]
    split_ifs with h1 h2 h3
    · exact ⟨rfl, rfl⟩
    · exact ih s
    · exact ih s
    · show (if MAX_ACTIVE_CARD_PREVIEWS ≤ s.previewByCard.length then s
            else pumpLoop (insertPreview Origin.pump c s) rest).pumps = s.pumps ∧
          (if MAX_ACTIVE_CARD_PREVIEWS ≤ s.previewByCard.length then s
            else pumpLoop (insertPreview Origin.pump c s) rest).pumpRaf = s.pumpRaf
      rw [if_neg h1]
      obtain ⟨hp, hr⟩ := ih (insertPreview Origin.pump c s)
      rw [hp, hr, insertPreview_pumps, insertPreview_pumpRaf]
      exact ⟨rfl, rfl⟩

theorem pumpLoop_preserves_failed_not_live : ∀ (l : List Nat) (s : GridState) (c : Nat),
    c ∈ s.failedCards → alookup c s.previewByCard = none →
    c ∈ (pumpLoop s l).failedCards ∧ alookup c (pumpLoop s l).previewByCard = none := by
  intro l
  induction l with
  | nil => intro s c hf hl; exact ⟨hf, hl⟩
  | cons c' rest ih =>
    intro s c hf hl
    rw [pumpLoop]
    split_ifs with h1 h2 h3
    · exact ⟨hf, hl⟩
    · exact ih s c hf hl
    · exact ih s c hf hl
    · show c ∈ (if MAX_ACTIVE_CARD_PREVIEWS ≤ s.previewByCard.length then s
            else pumpLoop (insertPreview Origin.pump c' s) rest).failedCards ∧
          alookup c (if MAX_ACTIVE_CARD_PREVIEWS ≤ s.previewByCard.length then s
            else pumpLoop (insertPreview Origin.pump c' s) rest).previewByCard = none
      rw [if_neg h1]
      apply ih
      · rw [insertPreview_failedCards]; exact hf
      · rw [insertPreview_previewByCard]
        have hne : c' ≠ c := fun he => h3 (he ▸ hf)
        rw [alookup_append_ne c c' _ hne]
        exact hl

theorem pumpVisiblePreviews_length_le (s : GridState)
    (hs : s.previewByCard.length ≤ MAX_ACTIVE_CARD_PREVIEWS) :
    (pumpVisiblePreviews s).previewByCard.length ≤ MAX_ACTIVE_CARD_PREVIEWS := by
  rw [pumpVisiblePreviews]
  split_ifs with h
  · exact hs
  · exact pumpLoop_length_le s.visibleCards s hs

theorem pumpVisiblePreviews_pumps_raf (s : GridState) :
    (pumpVisiblePreviews s).pumps = s.pumps ∧ (pumpVisiblePreviews s).pumpRaf = s.pumpRaf := by
  rw [pumpVisiblePreviews]
  split_ifs with h
  · exact ⟨rfl, rfl⟩
  · exact pumpLoop_pumps_raf s.visibleCards s

theorem pumpVisiblePreviews_preserves_failed_not_live (s : GridState) (c : Nat)
    (hf : c ∈ s.failedCards) (hl : alookup c s.previewByCard = none) :
    c ∈ (pumpVisiblePreviews s).failedCards ∧
    alookup c (pumpVisiblePreviews s).previewByCard = none := by
  rw [pumpVisiblePreviews]
  split_ifs with h
  · exact ⟨hf, hl⟩
  · exact pumpLoop_preserves_failed_not_live s.visibleCards s c hf hl

@[simp] theorem stepEnter_previewByCard (c : Nat) (s : GridState) :
    (stepEnter c s).previewByCard = s.previewByCard := by
  rw [stepEnter, schedulePump_previewByCard]

@[simp] theorem stepEnter_failedCards (c : Nat) (s : GridState) :
    (stepEnter c s).failedCards = s.failedCards := by
  rw [stepEnter, schedulePump_failedCards]

@[simp] theorem stepEnter_pumps (c : Nat) (s : GridState) :
    (stepEnter c s).pumps = s.pumps := by
  rw [stepEnter, schedulePump_pumps]

@[simp] theorem stepEnter_pumpRaf (c : Nat) (s : GridState) :
    (stepEnter c s).pumpRaf = true := by
  rw [stepEnter, schedulePump_pumpRaf]

theorem stepLeave_failedCards (c : Nat) (s : GridState) :
    (stepLeave c s).failedCards = s.failedCards := by
  rw [stepLeave]
  cases hx : alookup c s.previewByCard <;> simp [hx]

theorem stepLeave_pumps (c : Nat) (s : GridState) :
    (stepLeave c s).pumps = s.pumps := by
  rw [stepLeave]
  cases hx : alookup c s.previewByCard <;> simp [hx]

theorem stepLeave_pumpRaf (c : Nat) (s : GridState) :
    (stepLeave c s).pumpRaf = true := by
  rw [stepLeave]
  cases hx : alookup c s.previewByCard <;> simp [hx]

theorem stepLeave_previewByCard (c : Nat) (s : GridState) :
    (stepLeave c s).previewByCard =
      (match alookup c s.previewByCard with
       | some _ => eraseKey c s.previewByCard
       | none => s.previewByCard) := by
  rw [stepLeave]
  cases hx : alookup c s.previewByCard <;> simp [hx]

theorem stepLeave_alookup_self (c : Nat) (s : GridState) :
    alookup c (stepLeave c s).previewByCard = none := by
  rw [stepLeave_previewByCard]
  cases hx : alookup c s.previewByCard
  · exact hx
  · exact alookup_eraseKey_self c s.previewByCard

theorem stepLeave_alookup_none (c c' : Nat) (s : GridState)
    (hl : alookup c s.previewByCard = none) :
    alookup c (stepLeave c' s).previewByCard = none := by
  rw [stepLeave_previewByCard]
  cases hx : alookup c' s.previewByCard
  · exact hl
  · exact alookup_filter_none c _ s.previewByCard hl

theorem stepLeave_length_le (c : Nat) (s : GridState) :
    (stepLeave c s).previewByCard.length ≤ s.previewByCard.length := by
  rw [stepLeave_previewByCard]
  cases hx : alookup c s.previewByCard
  · exact Nat.le_refl _
  · exact List.length_filter_le _ _

theorem stepLeave_displayOf_self (c : Nat) (s : GridState) :
    displayOf c (stepLeave c s)
      = (if c ∈ s.failedCards then Disp.failedShown else Disp.idle) := by
  rw [stepLeave, displayOf]
  cases hx : alookup c s.previewByCard <;>
    simp [hx, alookup_setKey_self]

theorem stepLeave_disposes (c : Nat) (s : GridState) (h : Nat)
    (hx : alookup c s.previewByCard = some h) :
    (handleOf h (stepLeave c s)).disposed = true := by
  rw [stepLeave]
  simp only [hx]
  have := handleOf_markHandleDisposed_self h
      { s with visibleCards := s.visibleCards.filter (fun x => x != c) }
  rw [handleOf] at this ⊢
  simp only [schedulePump_handles]
  exact this

theorem onInitResolved_previewByCard (h c : Nat) (org : Origin) (s : GridState) :
    (onInitResolved h c org s).previewByCard = s.previewByCard := by
  cases org <;> simp [onInitResolved.eq_def, apply_ite GridState.previewByCard]

theorem onInitResolved_failedCards (h c : Nat) (org : Origin) (s : GridState) :
    (onInitResolved h c org s).failedCards = s.failedCards := by
  cases org <;> simp [onInitResolved.eq_def, apply_ite GridState.failedCards]

theorem onInitResolved_pumps (h c : Nat) (org : Origin) (s : GridState) :
    (onInitResolved h c org s).pumps = s.pumps := by
  cases org <;> simp [onInitResolved.eq_def, apply_ite GridState.pumps]

theorem onInitResolved_displayOf_self (h c : Nat) (org : Origin) (s : GridState) :
    displayOf c (onInitResolved h c org s) = Disp.ready := by
  rw [displayOf]
  cases org <;>
    simp [onInitResolved.eq_def, apply_ite GridState.display, alookup_setKey_self]

theorem onInitResolved_handles_of_disposed (h c : Nat) (org : Origin) (s : GridState)
    (hd : (handleOf h s).disposed = true) :
    (onInitResolved h c org s).handles = s.handles := by
  have hd1 : (handleOf h { s with pending := s.pending.erase (h, c, org) }).disposed = true := hd
  cases org <;> simp [onInitResolved.eq_def, hd1]

theorem onInitRejected_previewByCard (h c : Nat) (org : Origin) (s : GridState) :
    (onInitRejected h c org s).previewByCard = s.previewByCard := by
  cases org <;> simp [onInitRejected.eq_def]

theorem onInitRejected_pumps (h c : Nat) (org : Origin) (s : GridState) :
    (onInitRejected h c org s).pumps = s.pumps := by
  cases org <;> simp [onInitRejected.eq_def]

theorem onInitRejected_failed_self (h c : Nat) (org : Origin) (s : GridState) :
    c ∈ (onInitRejected h c org s).failedCards := by
  cases org <;> simp [onInitRejected.eq_def, mem_addToSet_self]

theorem onInitRejected_failed_mono (h c' c : Nat) (org : Origin) (s : GridState)
    (hf : c ∈ s.failedCards) :
    c ∈ (onInitRejected h c' org s).failedCards := by
  cases org <;> simp [onInitRejected.eq_def, mem_addToSet_of_mem _ _ _ hf]

theorem onInitRejected_displayOf_self (h c : Nat) (org : Origin) (s : GridState) :
    displayOf c (onInitRejected h c org s) = Disp.failedShown := by
  rw [displayOf]
  cases org <;> simp [onInitRejected.eq_def, alookup_setKey_self]

theorem onReloadClick_not_failed (c : Nat) (s : GridState) :
    c ∉ (onReloadClick c s).failedCards := by
  rw [onReloadClick]
  cases hx : alookup c s.previewByCard <;> simp [hx, List.mem_filter]

theorem onReloadClick_failed_of_ne (c' c : Nat) (s : GridState) (hne : c ≠ c')
    (hf : c ∈ s.failedCards) :
    c ∈ (onReloadClick c' s).failedCards := by
  rw [onReloadClick]
  cases hx : alookup c' s.previewByCard <;> simp [hx, List.mem_filter, hf, hne]

theorem onReloadClick_nextHandle (c : Nat) (s : GridState) :
    (onReloadClick c s).nextHandle = s.nextHandle + 1 := by
  rw [onReloadClick]
  cases hx : alookup c s.previewByCard <;> simp only [hx] <;> rfl

theorem onReloadClick_alookup_self (c : Nat) (s : GridState) :
    alookup c (onReloadClick c s).previewByCard = some s.nextHandle := by
  rw [onReloadClick]
  cases hx : alookup c s.previewByCard
  · simp only [hx, insertPreview_previewByCard]
    exact alookup_append_right_self c _ _ hx
  · simp only [hx, insertPreview_previewByCard]
    exact alookup_append_right_self c _ _ (alookup_eraseKey_self c _)

theorem onReloadClick_alookup_of_ne (c' c : Nat) (s : GridState) (hne : c' ≠ c)
    (hl : alookup c s.previewByCard = none) :
    alookup c (onReloadClick c' s).previewByCard = none := by
  rw [onReloadClick]
  cases hx : alookup c' s.previewByCard
  · simp only [hx, insertPreview_previewByCard]
    rw [alookup_append_ne c c' _ hne]
    exact hl
  · simp only [hx, insertPreview_previewByCard]
    rw [alookup_append_ne c c' _ hne]
    exact alookup_filter_none c _ _ hl

theorem onReloadClick_pending_self (c : Nat) (s : GridState) :
    (s.nextHandle, c, Origin.retry) ∈ (onReloadClick c s).pending := by
  rw [onReloadClick]
  cases hx : alookup c s.previewByCard <;> simp [hx]

theorem onReloadClick_pumpRaf (c : Nat) (s : GridState) :
    (onReloadClick c s).pumpRaf = s.pumpRaf := by
  rw [onReloadClick]
  cases hx : alookup c s.previewByCard <;> simp [hx]

theorem onReloadClick_disposes (c : Nat) (s : GridState) (h : Nat)
    (hx : alookup c s.previewByCard = some h)
    (hh : (alookup h s.handles).isSome = true) :
    (handleOf h (onReloadClick c s)).disposed = true := by
  rw [onReloadClick]
  simp only [hx]
  rw [handleOf]
  simp only [insertPreview_handles]
  obtain ⟨v, hv⟩ := Option.isSome_iff_exists.mp hh
  have hm : alookup h (markHandleDisposed h
      { s with failedCards := s.failedCards.filter (fun x => x != c) }).handles
        = some { disposed := true, attached := false } := by
    rw [alookup_markHandleDisposed]
    show (alookup h s.handles).map _ = _
    rw [hv]
    rfl
  rw [alookup_append_left h _ _ _ hm]
  rfl

theorem stepFrame_length_le (s : GridState)
    (hs : s.previewByCard.length ≤ MAX_ACTIVE_CARD_PREVIEWS) :
    (stepFrame s).previewByCard.length ≤ MAX_ACTIVE_CARD_PREVIEWS := by
  rw [stepFrame]
  split_ifs with h
  · exact pumpVisiblePreviews_length_le _ hs
  · exact hs

theorem stepFrame_preserves_failed_not_live (s : GridState) (c : Nat)
    (hf : c ∈ s.failedCards) (hl : alookup c s.previewByCard = none) :
    c ∈ (stepFrame s).failedCards ∧ alookup c (stepFrame s).previewByCard = none := by
  rw [stepFrame]
  split_ifs with h
  · exact pumpVisiblePreviews_preserves_failed_not_live _ c hf hl
  · exact ⟨hf, hl⟩

theorem stepFrame_of_scheduled (s : GridState) (h : s.pumpRaf = true) :
    (stepFrame s).pumps = s.pumps + 1 ∧ (stepFrame s).pumpRaf = false := by
  rw [stepFrame, if_pos h]
  obtain ⟨hp, hr⟩ := pumpVisiblePreviews_pumps_raf
      { s with pumpRaf := false, pumps := s.pumps + 1 }
  rw [hp, hr]
  exact ⟨rfl, rfl⟩

theorem stepFrame_of_unscheduled (s : GridState) (h : s.pumpRaf = false) :
    stepFrame s = s := by
  rw [stepFrame, if_neg]
  rw [h]
  exact Bool.false_ne_true

theorem run_append (l1 l2 : List Event) : ∀ s : GridState,
    run (l1 ++ l2) s = run l2 (run l1 s) := by
  induction l1 with
  | nil => intro s; rfl
  | cons e rest ih =>
    intro s
    rw [List.cons_append, run, run]
    exact ih (run1 e s)

theorem run1_preserves_failed_not_live (e : Event) (s : GridState) (c : Nat)
    (hne : isReloadOf c e = false)
    (hf : c ∈ s.failedCards) (hl : alookup c s.previewByCard = none) :
    c ∈ (run1 e s).failedCards ∧ alookup c (run1 e s).previewByCard = none := by
  cases e with
  | enter c' =>
    rw [run1_enter]
    exact ⟨by rw [stepEnter_failedCards]; exact hf, by rw [stepEnter_previewByCard]; exact hl⟩
  | leave c' =>
    rw [run1_leave]
    exact ⟨by rw [stepLeave_failedCards]; exact hf, stepLeave_alookup_none c c' s hl⟩
  | frame =>
    rw [run1_frame]
    exact stepFrame_preserves_failed_not_live s c hf hl
  | loadResolved h' c' org =>
    rw [run1]
    split_ifs with he
    · constructor
      · show c ∈ (onInitResolved h' c' org s).failedCards
        rw [onInitResolved_failedCards]; exact hf
      · show alookup c (onInitResolved h' c' org s).previewByCard = none
        rw [onInitResolved_previewByCard]; exact hl
    · exact ⟨hf, hl⟩
  | loadRejected h' c' org =>
    rw [run1]
    split_ifs with he
    · constructor
      · exact onInitRejected_failed_mono h' c' c org s hf
      · show alookup c (onInitRejected h' c' org s).previewByCard = none
        rw [onInitRejected_previewByCard]; exact hl
    · exact ⟨hf, hl⟩
  | reloadClick c' =>
    have hcc : c' ≠ c := by
      intro hcc
      rw [isReloadOf] at hne
      rw [hcc] at hne
      simp at hne
    rw [run1]
    split_ifs with he
    · exact ⟨onReloadClick_failed_of_ne c' c s (Ne.symm hcc) hf,
        onReloadClick_alookup_of_ne c' c s hcc hl⟩
    · exact ⟨hf, hl⟩

theorem visStep (e : Event) (s : GridState) (hv : isVisEvent e = true) :
    (run1 e s).pumps = s.pumps ∧ (run1 e s).pumpRaf = true := by
  cases e with
  | enter c => rw [run1_enter]; exact ⟨stepEnter_pumps c s, stepEnter_pumpRaf c s⟩
  | leave c => rw [run1_leave]; exact ⟨stepLeave_pumps c s, stepLeave_pumpRaf c s⟩
  | frame =>
    exact Bool.noConfusion ((show isVisEvent Event.frame = false from rfl).symm.trans hv)
  | loadResolved h c org =>
    exact Bool.noConfusion
      ((show isVisEvent (Event.loadResolved h c org) = false from rfl).symm.trans hv)
  | loadRejected h c org =>
    exact Bool.noConfusion
      ((show isVisEvent (Event.loadRejected h c org) = false from rfl).symm.trans hv)
  | reloadClick c =>
    exact Bool.noConfusion
      ((show isVisEvent (Event.reloadClick c) = false from rfl).symm.trans hv)

theorem runVis_pumps : ∀ (es : List Event) (s : GridState),
    (∀ e ∈ es, isVisEvent e = true) →
    (run es s).pumps = s.pumps ∧ (es ≠ [] → (run es s).pumpRaf = true) := by
  intro es
  induction es with
  | nil => intro s _; exact ⟨rfl, fun h => absurd rfl h⟩
  | cons e rest ih =>
    intro s hall
    have hv := hall e (List.mem_cons_self _ _)
    have hstep := visStep e s hv
    have hrest := ih (run1 e s) (fun e' h' => hall e' (List.mem_cons_of_mem _ h'))
    refine ⟨?_, fun _ => ?_⟩
    · rw [run, hrest.1, hstep.1]
    · cases rest with
      | nil =>
        rw [run]
        exact hstep.2
      | cons f fs =>
        rw [run]
        exact hrest.2 (by simp)

theorem schedulePump_idem (s : GridState) :
    schedulePump (schedulePump s) = schedulePump s := by
  nth_rewrite 1 [schedulePump]
  rw [schedulePump_pumpRaf]
  simp

/-- Claim C1, counterexample: the cap invariant is not maintained across
all reachable states.  After twelve admissions fill the set, a load failure
leaves its entry in place, the failed card scrolls out (removing it), a
thirteenth card is admitted, and a reload click on the failed,
no-longer-live card then inserts a fresh handle with no capacity check:
the Live Resource Set reaches 13 > 12 entries in a reachable state. -/
theorem C1_cap_counterexample :
    Reachable (run c1Trace freshGrid) ∧
    (run c1Trace freshGrid).previewByCard.length = 13 ∧
    MAX_ACTIVE_CARD_PREVIEWS < (run c1Trace freshGrid).previewByCard.length :=
  ⟨⟨c1Trace, rfl⟩, by decide, by decide⟩

/-- Claim C1, amended: every scheduler event except a manual reload click
preserves `size(previewByCard) ≤ MAX_ACTIVE_CARD_PREVIEWS`; in particular
pump passes, enter/leave events and load completions never push the Live
Resource Set above the cap.  Only the reload click handler inserts without
a capacity check. -/
theorem C1_cap_amended (e : Event) (s : GridState)
    (hcap : s.previewByCard.length ≤ MAX_ACTIVE_CARD_PREVIEWS)
    (hnr : isReloadClick e = false) :
    (run1 e s).previewByCard.length ≤ MAX_ACTIVE_CARD_PREVIEWS := by
  cases e with
  | enter c =>
    rw [run1_enter, stepEnter_previewByCard]
    exact hcap
  | leave c =>
    rw [run1_leave]
    exact Nat.le_trans (stepLeave_length_le c s) hcap
  | frame =>
    rw [run1_frame]
    exact stepFrame_length_le s hcap
  | loadResolved h c org =>
    rw [run1]
    split_ifs with he
    · show (onInitResolved h c org s).previewByCard.length ≤ MAX_ACTIVE_CARD_PREVIEWS
      rw [onInitResolved_previewByCard]
      exact hcap
    · exact hcap
  | loadRejected h c org =>
    rw [run1]
    split_ifs with he
    · show (onInitRejected h c org s).previewByCard.length ≤ MAX_ACTIVE_CARD_PREVIEWS
      rw [onInitRejected_previewByCard]
      exact hcap
    · exact hcap
  | reloadClick c =>
    exact Bool.noConfusion
      ((show isReloadClick (Event.reloadClick c) = true from rfl).symm.trans hnr)

/-- Claim C1, witness for the amended theorem at a concrete input. -/
theorem C1_cap_amended_witness :
    (run1 Event.frame freshGrid).previewByCard.length ≤ MAX_ACTIVE_CARD_PREVIEWS :=
  C1_cap_amended Event.frame freshGrid (by decide) (by decide)

/-- Claim C2, counterexample: when card 0's load rejects, the slot is
marked failed but its handle is NOT removed from the Live Resource Set —
the reachable state after `c2Trace` has card 0 simultaneously failed,
still live (its handle 0 still in `previewByCard`), and still visible. -/
theorem C2_failed_counterexample :
    Reachable (run c2Trace freshGrid) ∧
    0 ∈ (run c2Trace freshGrid).failedCards ∧
    alookup 0 (run c2Trace freshGrid).previewByCard = some 0 ∧
    0 ∈ (run c2Trace freshGrid).visibleCards :=
  ⟨⟨c2Trace, rfl⟩, by decide, by decide, by decide⟩

/-- Claim C2, amended: when a slot's load rejects, the slot is marked
failed and its display shows the failed state, but the Live Resource Set
is left unchanged — the handle stays in `previewByCard` (capacity is not
freed) until the slot leaves visibility or a manual reload tears it down. -/
theorem C2_failed_amended (h c : Nat) (org : Origin) (s : GridState)
    (hp : (h, c, org) ∈ s.pending) :
    c ∈ (run1 (Event.loadRejected h c org) s).failedCards ∧
    displayOf c (run1 (Event.loadRejected h c org) s) = Disp.failedShown ∧
    (run1 (Event.loadRejected h c org) s).previewByCard = s.previewByCard := by
  rw [run1_loadRejected_of_pending h c org s hp]
  exact ⟨onInitRejected_failed_self h c org s, onInitRejected_displayOf_self h c org s,
    onInitRejected_previewByCard h c org s⟩

/-- Claim C2, witness for the amended theorem at a concrete input. -/
theorem C2_failed_amended_witness :
    0 ∈ (run1 (Event.loadRejected 0 0 Origin.pump)
          (run [Event.enter 0, Event.frame] freshGrid)).failedCards ∧
    displayOf 0 (run1 (Event.loadRejected 0 0 Origin.pump)
          (run [Event.enter 0, Event.frame] freshGrid)) = Disp.failedShown ∧
    (run1 (Event.loadRejected 0 0 Origin.pump)
          (run [Event.enter 0, Event.frame] freshGrid)).previewByCard
      = (run [Event.enter 0, Event.frame] freshGrid).previewByCard :=
  C2_failed_amended 0 0 Origin.pump (run [Event.enter 0, Event.frame] freshGrid) (by decide)

/-- Claim C3, counterexample: a reachable pump pass that runs at capacity
with a remaining visible candidate and with a live entry whose card is not
visible performs no eviction and admits nothing.  After `c3Trace` the set
is at capacity, card 0 is live but not visible (so it is an eviction
candidate), card 12 is visible, unfailed and not live (an admission
candidate), and both the pump pass that just ran and a further pump pass
leave the state unchanged — card 0 stays live, card 12 stays out. -/
theorem C3_eviction_counterexample :
    Reachable (run c3Trace freshGrid) ∧
    (run c3Trace freshGrid).previewByCard.length = MAX_ACTIVE_CARD_PREVIEWS ∧
    alookup 0 (run c3Trace freshGrid).previewByCard = some 1 ∧
    0 ∉ (run c3Trace freshGrid).visibleCards ∧
    12 ∈ (run c3Trace freshGrid).visibleCards ∧
    12 ∉ (run c3Trace freshGrid).failedCards ∧
    alookup 12 (run c3Trace freshGrid).previewByCard = none ∧
    run (c3Trace ++ [Event.frame]) freshGrid = run c3Trace freshGrid :=
  ⟨⟨c3Trace, rfl⟩, by decide, by decide, by decide, by decide, by decide, by decide,
    by decide⟩

/-- Claim C3, amended: the eviction branch of `pumpVisiblePreviews` is
unreachable — the loop breaks out earlier whenever the set is at capacity,
so a pump pass never removes an entry from the Live Resource Set: it only
appends newly admitted entries.  When capacity is exhausted, admission
simply stops for the pass; entries are removed only by leave events and by
the reload handler's teardown. -/
theorem C3_eviction_amended (s : GridState) :
    ∃ t, (pumpVisiblePreviews s).previewByCard = s.previewByCard ++ t := by
  rw [pumpVisiblePreviews]
  split_ifs with h
  · exact ⟨[], by rw [List.append_nil]⟩
  · exact pumpLoop_append s.visibleCards s

/-- Claim C4, counterexample: card 0 leaves visibility while its load is
pending (handle 0 disposed, placeholder reset to idle by the leave
handler); when the in-flight load later resolves, the pump's `.then`
handler still runs and hides the placeholder — the display changes from
`idle` to `ready`, so the resolution is not a display no-op. -/
theorem C4_disposed_counterexample :
    Reachable (run c4Trace freshGrid) ∧
    (0, 0, Origin.pump) ∈ (run c4Trace freshGrid).pending ∧
    (handleOf 0 (run c4Trace freshGrid)).disposed = true ∧
    displayOf 0 (run c4Trace freshGrid) = Disp.idle ∧
    displayOf 0 (run1 (Event.loadResolved 0 0 Origin.pump) (run c4Trace freshGrid))
      = Disp.ready :=
  ⟨⟨c4Trace, rfl⟩, by decide, by decide, by decide, by decide⟩

/-- Claim C4, amended: when the load of a disposed, no-longer-live handle
resolves, no handle re-enters the Live Resource Set and the handle's
`_disposed` check skips the scene attachment (the handle store is
untouched), but the completion handler still updates the slot's display to
the ready state (placeholder hidden). -/
theorem C4_disposed_amended (h c : Nat) (org : Origin) (s : GridState)
    (hp : (h, c, org) ∈ s.pending)
    (hd : (handleOf h s).disposed = true)
    (hl : alookup c s.previewByCard = none) :
    alookup c (run1 (Event.loadResolved h c org) s).previewByCard = none ∧
    (run1 (Event.loadResolved h c org) s).handles = s.handles ∧
    displayOf c (run1 (Event.loadResolved h c org) s) = Disp.ready := by
  rw [run1_loadResolved_of_pending h c org s hp]
  refine ⟨?_, onInitResolved_handles_of_disposed h c org s hd,
    onInitResolved_displayOf_self h c org s⟩
  rw [onInitResolved_previewByCard]
  exact hl

/-- Claim C4, witness for the amended theorem at a concrete input. -/
theorem C4_disposed_amended_witness :
    alookup 0 (run1 (Event.loadResolved 0 0 Origin.pump)
        (run c4Trace freshGrid)).previewByCard = none ∧
    (run1 (Event.loadResolved 0 0 Origin.pump) (run c4Trace freshGrid)).handles
      = (run c4Trace freshGrid).handles ∧
    displayOf 0 (run1 (Event.loadResolved 0 0 Origin.pump) (run c4Trace freshGrid))
      = Disp.ready :=
  C4_disposed_amended 0 0 Origin.pump (run c4Trace freshGrid)
    (by decide) (by decide) (by decide)

/-- Claim C5 (confirmed): immediately after the leave handler for a slot
runs — synchronously, before any further event — the slot is absent from
the Live Resource Set, its display is reset to idle (or to the failed UI
when its failure flag is set), and whatever handle it held has been
disposed. -/
theorem C5_leave_immediate (c : Nat) (s : GridState) :
    alookup c (run1 (Event.leave c) s).previewByCard = none ∧
    displayOf c (run1 (Event.leave c) s)
      = (if c ∈ s.failedCards then Disp.failedShown else Disp.idle) ∧
    (∀ h, alookup c s.previewByCard = some h →
      (handleOf h (run1 (Event.leave c) s)).disposed = true) := by
  rw [run1_leave]
  exact ⟨stepLeave_alookup_self c s, stepLeave_displayOf_self c s,
    fun h hx => stepLeave_disposes c s h hx⟩

/-- Claim C5, witness at a concrete input (card 0 live with handle 0). -/
theorem C5_leave_immediate_witness :
    alookup 0 (run1 (Event.leave 0)
        (run [Event.enter 0, Event.frame] freshGrid)).previewByCard = none ∧
    displayOf 0 (run1 (Event.leave 0) (run [Event.enter 0, Event.frame] freshGrid))
      = (if 0 ∈ (run [Event.enter 0, Event.frame] freshGrid).failedCards
         then Disp.failedShown else Disp.idle) ∧
    (∀ h, alookup 0 (run [Event.enter 0, Event.frame] freshGrid).previewByCard = some h →
      (handleOf h (run1 (Event.leave 0)
          (run [Event.enter 0, Event.frame] freshGrid))).disposed = true) :=
  C5_leave_immediate 0 (run [Event.enter 0, Event.frame] freshGrid)

/-- Claim C6 (confirmed): a slot whose failure flag is set and which is
not live stays unadmitted and flagged across any sequence of events that
contains no reload click on that slot — no number of pump passes, visibility
events, or other slots' completions ever re-admits it. -/
theorem C6_failed_never_readmitted : ∀ (tr : List Event) (s : GridState) (c : Nat),
    c ∈ s.failedCards → alookup c s.previewByCard = none →
    (∀ e ∈ tr, isReloadOf c e = false) →
    c ∈ (run tr s).failedCards ∧ alookup c (run tr s).previewByCard = none := by
  intro tr
  induction tr with
  | nil => intro s c hf hl _; exact ⟨hf, hl⟩
  | cons e rest ih =>
    intro s c hf hl hall
    rw [run]
    have he := hall e (List.mem_cons_self _ _)
    obtain ⟨hf', hl'⟩ := run1_preserves_failed_not_live e s c he hf hl
    exact ih (run1 e s) c hf' hl' (fun e' h' => hall e' (List.mem_cons_of_mem _ h'))

/-- Claim C6, witness: card 0 (failed, not live) stays out of the Live
Resource Set and flagged across two further pump passes. -/
theorem C6_failed_never_readmitted_witness :
    0 ∈ (run c6Tail c6Start).failedCards ∧
    alookup 0 (run c6Tail c6Start).previewByCard = none :=
  C6_failed_never_readmitted c6Tail c6Start 0 (by decide) (by decide) (by decide)

/-- Claim C7 (confirmed): with fourteen visible slots, none failed and
none live, a single pump admits exactly the first twelve in insertion
order (cards 0..11), leaving cards 12 and 13 pending; after card 5 leaves
visibility, the next pump admits exactly one of the pending slots (card
12, the first non-live visible card), and card 13 remains pending. -/
theorem C7_pump_scenario :
    (run c7TraceA freshGrid).previewByCard.map Prod.fst = List.range 12 ∧
    (run c7TraceA freshGrid).previewByCard.length = MAX_ACTIVE_CARD_PREVIEWS ∧
    (run c7TraceA freshGrid).visibleCards = List.range 14 ∧
    (run c7TraceA freshGrid).failedCards = [] ∧
    alookup 12 (run c7TraceA freshGrid).previewByCard = none ∧
    alookup 13 (run c7TraceA freshGrid).previewByCard = none ∧
    (run c7TraceB freshGrid).previewByCard.map Prod.fst
      = [0, 1, 2, 3, 4, 6, 7, 8, 9, 10, 11, 12] ∧
    alookup 13 (run c7TraceB freshGrid).previewByCard = none :=
  ⟨by decide, by decide, by decide, by decide, by decide, by decide, by decide, by decide⟩

/-- Claim C8, counterexample: in a reachable state where card 0 is failed,
not live, and no pump is scheduled, clicking RELOAD does not call
`schedulePump` (no pump is scheduled afterwards) and instead immediately
creates and inserts a fresh handle (id 1) and starts its load — the slot
is loaded outside the pump, not re-admitted by a subsequent pump pass. -/
theorem C8_retry_counterexample :
    Reachable (run c8Trace freshGrid) ∧
    displayOf 0 (run c8Trace freshGrid) = Disp.failedShown ∧
    (run c8Trace freshGrid).pumpRaf = false ∧
    (run1 (Event.reloadClick 0) (run c8Trace freshGrid)).pumpRaf = false ∧
    alookup 0 (run1 (Event.reloadClick 0) (run c8Trace freshGrid)).previewByCard = some 1 ∧
    (1, 0, Origin.retry) ∈ (run1 (Event.reloadClick 0) (run c8Trace freshGrid)).pending :=
  ⟨⟨c8Trace, rfl⟩, by decide, by decide, by decide, by decide, by decide⟩

/-- Claim C8, amended: the reload click clears the slot's failure flag and
disposes any stale handle, but it never calls `requestPump`: the pump
scheduling flag is left exactly as it was, and the handler itself inserts
a fresh handle into the Live Resource Set (without any capacity check) and
starts its load directly, outside the pump. -/
theorem C8_retry_amended (c : Nat) (s : GridState)
    (hen : displayOf c s = Disp.failedShown) :
    c ∉ (run1 (Event.reloadClick c) s).failedCards ∧
    (∀ h, alookup c s.previewByCard = some h → (alookup h s.handles).isSome = true →
      (handleOf h (run1 (Event.reloadClick c) s)).disposed = true) ∧
    alookup c (run1 (Event.reloadClick c) s).previewByCard = some s.nextHandle ∧
    (s.nextHandle, c, Origin.retry) ∈ (run1 (Event.reloadClick c) s).pending ∧
    (run1 (Event.reloadClick c) s).pumpRaf = s.pumpRaf := by
  rw [run1_reloadClick_of_shown c s hen]
  exact ⟨onReloadClick_not_failed c s,
    fun h hx hh => onReloadClick_disposes c s h hx hh,
    onReloadClick_alookup_self c s,
    onReloadClick_pending_self c s,
    onReloadClick_pumpRaf c s⟩

/-- Claim C8, witness for the amended theorem at a concrete input. -/
theorem C8_retry_amended_witness :
    0 ∉ (run1 (Event.reloadClick 0) (run c8Trace freshGrid)).failedCards ∧
    (∀ h, alookup 0 (run c8Trace freshGrid).previewByCard = some h →
      (alookup h (run c8Trace freshGrid).handles).isSome = true →
      (handleOf h (run1 (Event.reloadClick 0) (run c8Trace freshGrid))).disposed = true) ∧
    alookup 0 (run1 (Event.reloadClick 0) (run c8Trace freshGrid)).previewByCard
      = some (run c8Trace freshGrid).nextHandle ∧
    ((run c8Trace freshGrid).nextHandle, 0, Origin.retry)
      ∈ (run1 (Event.reloadClick 0) (run c8Trace freshGrid)).pending ∧
    (run1 (Event.reloadClick 0) (run c8Trace freshGrid)).pumpRaf
      = (run c8Trace freshGrid).pumpRaf :=
  C8_retry_amended 0 (run c8Trace freshGrid) (by decide)

/-- Claim C9 (confirmed): `schedulePump` is idempotent — scheduling while
a pump is already scheduled changes nothing — and any non-empty burst of
enter/leave events coalesces into exactly one pump execution at the next
frame boundary: the burst itself runs no pump, the following frame runs
exactly one pass, and a second frame with nothing scheduled runs none. -/
theorem C9_requestPump_idempotent (s : GridState) (es : List Event) :
    schedulePump (schedulePump s) = schedulePump s ∧
    (es ≠ [] → (∀ e ∈ es, isVisEvent e = true) →
      (run es s).pumps = s.pumps ∧
      (run (es ++ [Event.frame]) s).pumps = s.pumps + 1 ∧
      (run (es ++ [Event.frame, Event.frame]) s).pumps = s.pumps + 1) := by
  refine ⟨schedulePump_idem s, fun hne hall => ?_⟩
  obtain ⟨hp, hraf⟩ := runVis_pumps es s hall
  have hraf' := hraf hne
  have hsf := stepFrame_of_scheduled (run es s) hraf'
  have h1 : run (es ++ [Event.frame]) s = stepFrame (run es s) := by
    rw [run_append]; rfl
  have h2 : run (es ++ [Event.frame, Event.frame]) s
      = stepFrame (stepFrame (run es s)) := by
    rw [run_append]; rfl
  refine ⟨hp, ?_, ?_⟩
  · rw [h1, hsf.1, hp]
  · rw [h2, stepFrame_of_unscheduled _ hsf.2, hsf.1, hp]

/-- Claim C9, witness: a one-event burst followed by one frame executes
exactly one pump pass. -/
theorem C9_requestPump_idempotent_witness :
    (run ([Event.enter 0] ++ [Event.frame]) freshGrid).pumps = freshGrid.pumps + 1 :=
  (((C9_requestPump_idempotent freshGrid [Event.enter 0]).2 (by decide) (by decide)).2).1

/-- Claim C10 (confirmed): `CardPreview.destroy` is idempotent and safe in
every handle state, including pending: a second `destroy` call (with any
`removeDom` flag) leaves the instance unchanged and releases nothing — no
resource is ever released twice — the instance is marked `_disposed` by the
first call, and a single `destroy` call never lists the same underlying
resource twice.  Totality of the function models the source's guarded
accesses: `destroy` cannot throw. -/
theorem C10_destroy_idempotent (p : CardPreview) (b1 b2 : Bool) :
    ((p.destroy b1).1.destroy b2).1 = (p.destroy b1).1 ∧
    ((p.destroy b1).1.destroy b2).2 = [] ∧
    ((p.destroy b1).1)._disposed = true ∧
    ((p.destroy b1).2).Nodup := by
  obtain ⟨c, r, sc, cam, rt, ro, d⟩ := p
  refine ⟨?_, ?_, rfl, ?_⟩
  · simp [CardPreview.destroy]
  · simp [CardPreview.destroy]
  · cases ro <;> cases rt <;> cases sc <;> cases r <;> cases c <;> cases b1 <;>
      simp [CardPreview.destroy]
